import Mathlib

/-
Verification of the lambda-rust-sample request handler (src/main.rs).

The Rust program is a single-file AWS Lambda handler: it validates an
optional `textBody` field (non-empty, at most 100 bytes), resolves an S3
client from environment variables (mock / local / cloud), and uploads the
text to a fixed key in a configured bucket with ACL public-read.

The embedding below models the process environment as a partial map from
variable names to values, and the S3 `put_object` call as an explicit
upload oracle passed to the handler, so that the sequence of issued put
requests is observable.  A `None` result of `get_s3_client` models the
`unwrap` panic on a missing `LOCAL_FLAG`.
-/

namespace LambdaRustSample

/-- Environment-variable constants from src/main.rs lines 33-37. -/
def MOCK_KEY : String := "AWS_MOCK_FLAG"

def BUCKET_NAME_KEY : String := "BUCKET_NAME"

def LOCAL_KEY : String := "LOCAL_FLAG"

def MSG_EMPTY_TEXT_BODY : String := "Empty text body."

def MSG_TEXT_BODY_TOO_LONG : String := "Text body is too long (max: 100)"

/-- The process environment: a partial map from variable names to values.
`env::var k` succeeds exactly when the map is `some` at `k`. -/
def Env : Type := String → Option String

/-- Display text of std::env::VarError::NotPresent, which the `?` operator
on line 60 of src/main.rs converts into the returned anyhow error. -/
def VAR_NOT_FOUND_MSG : String := "environment variable not found"

/-- The deserialized invocation input (struct CustomEvent): one optional
camelCase field `textBody`. -/
structure CustomEvent where
  text_body : Option String
deriving DecidableEq

/-- The invocation output (struct CustomOutput): a single message string. -/
structure CustomOutput where
  message : String
deriving DecidableEq

/-- rusoto Region as used by the program: the named production region
`ApNortheast1`, or a custom region with a name and an endpoint. -/
inductive Region where
  | apNortheast1 : Region
  | custom (rname endpoint : String) : Region
deriving DecidableEq

/-- The region label: `Region::ApNortheast1.name()` is "ap-northeast-1";
a custom region carries its own label. -/
def Region.regionName : Region → String
  | .apNortheast1 => "ap-northeast-1"
  | .custom n _ => n

/-- The three client configurations `get_s3_client` can build: a mock
client whose canned response is read from a named fixture, or a real
client for a region. -/
inductive S3ClientKind where
  | mock (dir file : String) : S3ClientKind
  | real (region : Region) : S3ClientKind
deriving DecidableEq

/-- Model of `get_s3_client` (src/main.rs lines 74-99).  `None` models the
panic of `env::var(LOCAL_KEY).unwrap()` when `LOCAL_FLAG` is unset. -/
def get_s3_client (env : Env) : Option S3ClientKind :=
  match env MOCK_KEY with
  | some _ =>
      some (S3ClientKind.mock "mock_data" "s3_test.json")
  | none =>
      match env LOCAL_KEY with
      | none => none
      | some v =>
          if v ≠ "" then
            some (S3ClientKind.real
              (Region.custom "ap-northeast-1" "http://host.docker.internal:8000"))
          else
            some (S3ClientKind.real Region.apNortheast1)

/-- The UTF-8 bytes of a string, as `String::into_bytes` produces them:
each character is UTF-8 encoded in order.  This is the list underlying
`String.toUTF8`, with each byte read as a natural number. -/
def utf8Bytes (s : String) : List Nat :=
  (s.data.flatMap String.utf8EncodeChar).map (fun b => b.toNat)

/-- The fields of rusoto `PutObjectRequest` that the program sets
(src/main.rs lines 61-66); the rest are defaulted. -/
structure PutObjectRequest where
  bucket : String
  key : String
  body : Option (List Nat)
  acl : Option String
deriving DecidableEq

/-- Outcome of one handler invocation: a successful output, an error whose
string form is recorded, or an unrecoverable panic. -/
inductive Outcome where
  | ok (out : CustomOutput) : Outcome
  | err (msg : String) : Outcome
  | panicked : Outcome
deriving DecidableEq

/-- Result of one invocation of `hello`: its outcome together with the
list of put-object requests issued to the storage client, in order. -/
structure HelloResult where
  outcome : Outcome
  puts : List PutObjectRequest
deriving DecidableEq

/-- `format!("[{}] {}", code, msg)` from src/main.rs lines 101-103. -/
def get_err_msg (code : Nat) (msg : String) : String :=
  "[" ++ toString code ++ "] " ++ msg

/-- Model of the handler `hello` (src/main.rs lines 49-72).  The upload
oracle stands for `S3Client::put_object`: applying it to a request is
invoking the upload, and its `Except` result is the call's outcome. -/
def hello (env : Env) (upload : PutObjectRequest → Except String Unit)
    (event : CustomEvent) : HelloResult :=
  match event.text_body with
  | none =>
      ⟨Outcome.err (get_err_msg 400 MSG_EMPTY_TEXT_BODY), []⟩
  | some text =>
      if text.utf8ByteSize > 100 then
        ⟨Outcome.err (get_err_msg 400 MSG_TEXT_BODY_TOO_LONG), []⟩
      else
        match get_s3_client env with
        | none => ⟨Outcome.panicked, []⟩
        | some _s3 =>
            match env BUCKET_NAME_KEY with
            | none => ⟨Outcome.err VAR_NOT_FOUND_MSG, []⟩
            | some bucket_name =>
                let req : PutObjectRequest :=
                  ⟨bucket_name, "test.txt", some (utf8Bytes text), some "public-read"⟩
                match upload req with
                | Except.error e => ⟨Outcome.err e, [req]⟩
                | Except.ok _ => ⟨Outcome.ok ⟨"Succeeded."⟩, [req]⟩

/-! ### Shared helper lemmas -/

/-- Unfolding of `hello` on an absent text body. -/
theorem hello_none_eq (env : Env) (upload : PutObjectRequest → Except String Unit) :
    hello env upload ⟨none⟩ = ⟨Outcome.err (get_err_msg 400 MSG_EMPTY_TEXT_BODY), []⟩ :=
  rfl

/-- Unfolding of `hello` on an over-long text body. -/
theorem hello_long_eq (env : Env) (upload : PutObjectRequest → Except String Unit)
    (text : String) (h : 100 < text.utf8ByteSize) :
    hello env upload ⟨some text⟩ = ⟨Outcome.err (get_err_msg 400 MSG_TEXT_BODY_TOO_LONG), []⟩ := by
  simp [hello, h]

/-- Unfolding of `hello` on the fully successful path. -/
theorem hello_ok_eq (env : Env) (upload : PutObjectRequest → Except String Unit)
    (text : String) (client : S3ClientKind) (bucket : String)
    (hlen : text.utf8ByteSize ≤ 100)
    (hclient : get_s3_client env = some client)
    (hbucket : env BUCKET_NAME_KEY = some bucket)
    (hupload : upload ⟨bucket, "test.txt", some (utf8Bytes text), some "public-read"⟩ =
      Except.ok ()) :
    hello env upload ⟨some text⟩ =
      ⟨Outcome.ok ⟨"Succeeded."⟩,
       [⟨bucket, "test.txt", some (utf8Bytes text), some "public-read"⟩]⟩ := by
  simp [hello, Nat.not_lt.mpr hlen, hclient, hbucket, hupload]

/-- On a validated text with a resolved client and a configured bucket, the
put request issued is fixed, whatever the upload result is. -/
theorem hello_puts_eq (env : Env) (upload : PutObjectRequest → Except String Unit)
    (text : String) (client : S3ClientKind) (bucket : String)
    (hlen : text.utf8ByteSize ≤ 100)
    (hclient : get_s3_client env = some client)
    (hbucket : env BUCKET_NAME_KEY = some bucket) :
    (hello env upload ⟨some text⟩).puts =
      [⟨bucket, "test.txt", some (utf8Bytes text), some "public-read"⟩] := by
  simp only [hello, Nat.not_lt.mpr hlen, hclient, hbucket, gt_iff_lt, if_neg (Nat.not_lt.mpr hlen)]
  cases upload ⟨bucket, "test.txt", some (utf8Bytes text), some "public-read"⟩ <;> rfl

/-! ### Witness inputs -/

/-- An upload oracle that always succeeds. -/
def wUploadOk : PutObjectRequest → Except String Unit := fun _ => Except.ok ()

/-- An upload oracle that always fails with a transport error. -/
def wUploadErr : PutObjectRequest → Except String Unit :=
  fun _ => Except.error "transport failure"

/-- Environment of the repository's unit tests: mock flag and bucket set. -/
def wEnvMock : Env := fun k =>
  if k = "AWS_MOCK_FLAG" then some "1"
  else if k = "BUCKET_NAME" then some "test-bucket"
  else none

/-- Environment with the mock flag set together with other flags. -/
def wEnvMockLocal : Env := fun k =>
  if k = "AWS_MOCK_FLAG" then some "mock"
  else if k = "LOCAL_FLAG" then some "local"
  else if k = "BUCKET_NAME" then some "other-bucket"
  else none

/-- Environment with only the local flag set, to a non-empty value. -/
def wEnvLocal : Env := fun k => if k = "LOCAL_FLAG" then some "local" else none

/-- Environment with only the local flag set, to the empty string. -/
def wEnvLocalEmpty : Env := fun k => if k = "LOCAL_FLAG" then some "" else none

/-- Environment with only the mock flag set: no bucket name. -/
def wEnvMockOnly : Env := fun k => if k = "AWS_MOCK_FLAG" then some "1" else none

/-- The empty environment. -/
def wEnvEmpty : Env := fun _ => none

/-- A string of exactly 100 bytes. -/
def text100 : String := String.mk (List.replicate 100 'a')

/-- A string of exactly 101 bytes. -/
def text101 : String := String.mk (List.replicate 101 'a')

/-! ### Claim theorems -/

/-- Claim C1: for every request whose textBody field is present with length
at most 100 bytes, when the client resolves, the bucket name is configured
and the put call succeeds, the handler succeeds with response message
"Succeeded." and the upload operation is invoked exactly once, with body
equal to the input's UTF-8 bytes, as witnessed at a 100-byte input. -/
theorem hello_valid_request_succeeds (env : Env)
    (upload : PutObjectRequest → Except String Unit)
    (text : String) (client : S3ClientKind) (bucket : String)
    (hlen : text.utf8ByteSize ≤ 100)
    (hclient : get_s3_client env = some client)
    (hbucket : env BUCKET_NAME_KEY = some bucket)
    (hupload : upload ⟨bucket, "test.txt", some (utf8Bytes text), some "public-read"⟩ =
      Except.ok ()) :
    hello env upload ⟨some text⟩ =
      ⟨Outcome.ok ⟨"Succeeded."⟩,
       [⟨bucket, "test.txt", some (utf8Bytes text), some "public-read"⟩]⟩ :=
  hello_ok_eq env upload text client bucket hlen hclient hbucket hupload

/-- Witness for C1 at a text of exactly 100 bytes under the unit tests'
mock environment. -/
theorem hello_valid_request_succeeds_w :
    hello wEnvMock wUploadOk ⟨some text100⟩ =
      ⟨Outcome.ok ⟨"Succeeded."⟩,
       [⟨"test-bucket", "test.txt", some (utf8Bytes text100), some "public-read"⟩]⟩ :=
  hello_valid_request_succeeds wEnvMock wUploadOk text100
    (S3ClientKind.mock "mock_data" "s3_test.json") "test-bucket"
    (by decide) (by decide) (by decide) rfl

/-- Claim C2: for every request whose textBody field is absent, the handler
fails and the string form of the returned error is exactly
"[400] Empty text body.", with no upload issued. -/
theorem hello_absent_text_body_fails (env : Env)
    (upload : PutObjectRequest → Except String Unit) :
    hello env upload ⟨none⟩ = ⟨Outcome.err "[400] Empty text body.", []⟩ :=
  hello_none_eq env upload

/-- Claim C3: for every request whose textBody is present with UTF-8 byte
length above 100, the handler fails and the string form of the returned
error is exactly "[400] Text body is too long (max: 100)". -/
theorem hello_too_long_fails (env : Env)
    (upload : PutObjectRequest → Except String Unit)
    (text : String) (h : 100 < text.utf8ByteSize) :
    hello env upload ⟨some text⟩ =
      ⟨Outcome.err "[400] Text body is too long (max: 100)", []⟩ :=
  hello_long_eq env upload text h

/-- Witness for C3 at a 101-byte text. -/
theorem hello_too_long_fails_w :
    hello wEnvMock wUploadOk ⟨some text101⟩ =
      ⟨Outcome.err "[400] Text body is too long (max: 100)", []⟩ :=
  hello_too_long_fails wEnvMock wUploadOk text101 (by decide)

/-- Claim C4: for every validated text handled with a resolved client and a
configured bucket, the upload operation writes a single object to that
bucket under the fixed key "test.txt", with body equal to the UTF-8 bytes
of the text and the access-control list set to "public-read". -/
theorem hello_upload_request_shape (env : Env)
    (upload : PutObjectRequest → Except String Unit)
    (text : String) (client : S3ClientKind) (bucket : String)
    (hlen : text.utf8ByteSize ≤ 100)
    (hclient : get_s3_client env = some client)
    (hbucket : env BUCKET_NAME_KEY = some bucket) :
    (hello env upload ⟨some text⟩).puts =
      [⟨bucket, "test.txt", some (utf8Bytes text), some "public-read"⟩] :=
  hello_puts_eq env upload text client bucket hlen hclient hbucket

/-- Witness for C4: the request emitted for the text "Firstname", even when
the upload oracle fails. -/
theorem hello_upload_request_shape_w :
    (hello wEnvMock wUploadErr ⟨some "Firstname"⟩).puts =
      [⟨"test-bucket", "test.txt", some (utf8Bytes "Firstname"), some "public-read"⟩] :=
  hello_upload_request_shape wEnvMock wUploadErr "Firstname"
    (S3ClientKind.mock "mock_data" "s3_test.json") "test-bucket"
    (by decide) (by decide) (by decide)

/-- Claim C5: whenever the mock-mode flag AWS_MOCK_FLAG is present with any
value, the client resolver returns the mock client backed by the fixture
mock_data / s3_test.json, regardless of the other flags. -/
theorem get_s3_client_mock_mode (env : Env) (v : String)
    (h : env MOCK_KEY = some v) :
    get_s3_client env = some (S3ClientKind.mock "mock_data" "s3_test.json") := by
  simp [get_s3_client, h]

/-- Witness for C5 in an environment where the local flag is also set. -/
theorem get_s3_client_mock_mode_w :
    get_s3_client wEnvMockLocal = some (S3ClientKind.mock "mock_data" "s3_test.json") :=
  get_s3_client_mock_mode wEnvMockLocal "mock" (by decide)

/-- Claim C6: with the mock flag absent and LOCAL_FLAG set, a non-empty
value yields the client for the fixed local endpoint
http://host.docker.internal:8000 under the region label "ap-northeast-1",
and the empty value yields the client for the production region
ApNortheast1, whose label is also "ap-northeast-1". -/
theorem get_s3_client_local_mode (env : Env) (v : String)
    (hmock : env MOCK_KEY = none) (hlocal : env LOCAL_KEY = some v) :
    (v ≠ "" →
      get_s3_client env = some (S3ClientKind.real
        (Region.custom "ap-northeast-1" "http://host.docker.internal:8000"))) ∧
    (v = "" → get_s3_client env = some (S3ClientKind.real Region.apNortheast1)) ∧
    (Region.custom "ap-northeast-1" "http://host.docker.internal:8000").regionName =
      "ap-northeast-1" ∧
    Region.apNortheast1.regionName = "ap-northeast-1" := by
  refine ⟨fun hv => ?_, fun hv => ?_, rfl, rfl⟩ <;>
    simp [get_s3_client, hmock, hlocal, hv]

/-- Witness for C6 with the local flag set to the non-empty value "local". -/
theorem get_s3_client_local_mode_w :
    get_s3_client wEnvLocal = some (S3ClientKind.real
      (Region.custom "ap-northeast-1" "http://host.docker.internal:8000")) :=
  (get_s3_client_local_mode wEnvLocal "local" (by decide) (by decide)).1 (by decide)

/-- Claim C7: with the mock flag absent and LOCAL_FLAG entirely unset,
client resolution panics, modelled as `get_s3_client` returning `none`. -/
theorem get_s3_client_unset_local_panics (env : Env)
    (hmock : env MOCK_KEY = none) (hlocal : env LOCAL_KEY = none) :
    get_s3_client env = none := by
  simp [get_s3_client, hmock, hlocal]

/-- Witness for C7 at the empty environment. -/
theorem get_s3_client_unset_local_panics_w : get_s3_client wEnvEmpty = none :=
  get_s3_client_unset_local_panics wEnvEmpty rfl rfl

/-- Every string produced by `get_err_msg` begins with the bracket
character. -/
theorem get_err_msg_head (code : Nat) (msg : String) :
    (get_err_msg code msg).data.head? = some '[' := by
  simp [get_err_msg, String.data_append]

/-- Claim C8: a valid request handled with a resolved client but with
BUCKET_NAME unset fails with the underlying variable-lookup error text,
which is not of the bracketed form produced by get_err_msg for any code
and message, and no upload is issued. -/
theorem hello_missing_bucket_unprefixed (env : Env)
    (upload : PutObjectRequest → Except String Unit)
    (text : String) (client : S3ClientKind)
    (hlen : text.utf8ByteSize ≤ 100)
    (hclient : get_s3_client env = some client)
    (hbucket : env BUCKET_NAME_KEY = none) :
    hello env upload ⟨some text⟩ = ⟨Outcome.err VAR_NOT_FOUND_MSG, []⟩ ∧
    ∀ code msg, VAR_NOT_FOUND_MSG ≠ get_err_msg code msg := by
  refine ⟨?_, fun code msg hEq => ?_⟩
  · simp [hello, Nat.not_lt.mpr hlen, hclient, hbucket]
  · have h1 : VAR_NOT_FOUND_MSG.data.head? = some 'e' := by decide
    rw [hEq, get_err_msg_head] at h1
    simp at h1

/-- Witness for C8 in an environment with only the mock flag set. -/
theorem hello_missing_bucket_unprefixed_w :
    hello wEnvMockOnly wUploadOk ⟨some "Firstname"⟩ =
      ⟨Outcome.err VAR_NOT_FOUND_MSG, []⟩ ∧
    ∀ code msg, VAR_NOT_FOUND_MSG ≠ get_err_msg code msg :=
  hello_missing_bucket_unprefixed wEnvMockOnly wUploadOk "Firstname"
    (S3ClientKind.mock "mock_data" "s3_test.json")
    (by decide) (by decide) (by decide)

/-- Claim C9: on a request that fails validation, the handler's result does
not depend on the environment or on the storage client, and no put request
is issued: validation returns before client resolution, before the bucket
lookup and before any upload. -/
theorem hello_validation_precedes_effects (env1 env2 : Env)
    (upload1 upload2 : PutObjectRequest → Except String Unit)
    (event : CustomEvent)
    (h : event.text_body = none ∨
      ∃ t, event.text_body = some t ∧ 100 < t.utf8ByteSize) :
    hello env1 upload1 event = hello env2 upload2 event ∧
    (hello env1 upload1 event).puts = [] := by
  rcases h with h | ⟨t, ht, hlen⟩
  · obtain ⟨tb⟩ := event
    cases tb with
    | none => exact ⟨rfl, rfl⟩
    | some t => simp at h
  · obtain ⟨tb⟩ := event
    simp only at ht
    subst ht
    rw [hello_long_eq env1 upload1 t hlen, hello_long_eq env2 upload2 t hlen]
    exact ⟨rfl, rfl⟩

/-- Witness for C9 at an absent text body, across two different
environments and upload oracles. -/
theorem hello_validation_precedes_effects_w :
    hello wEnvMock wUploadOk ⟨none⟩ = hello wEnvEmpty wUploadErr ⟨none⟩ ∧
    (hello wEnvMock wUploadOk (⟨none⟩ : CustomEvent)).puts = [] :=
  hello_validation_precedes_effects wEnvMock wEnvEmpty wUploadOk wUploadErr
    ⟨none⟩ (Or.inl rfl)

/-- Claim C10: any two valid requests whose uploads succeed produce
identical handler outcomes, the constant success output "Succeeded.",
revealing nothing about which text was submitted. -/
theorem hello_success_output_constant (env1 env2 : Env)
    (upload1 upload2 : PutObjectRequest → Except String Unit)
    (t1 t2 : String) (c1 c2 : S3ClientKind) (b1 b2 : String)
    (hlen1 : t1.utf8ByteSize ≤ 100) (hlen2 : t2.utf8ByteSize ≤ 100)
    (hc1 : get_s3_client env1 = some c1) (hc2 : get_s3_client env2 = some c2)
    (hb1 : env1 BUCKET_NAME_KEY = some b1) (hb2 : env2 BUCKET_NAME_KEY = some b2)
    (hu1 : upload1 ⟨b1, "test.txt", some (utf8Bytes t1), some "public-read"⟩ =
      Except.ok ())
    (hu2 : upload2 ⟨b2, "test.txt", some (utf8Bytes t2), some "public-read"⟩ =
      Except.ok ()) :
    (hello env1 upload1 ⟨some t1⟩).outcome = (hello env2 upload2 ⟨some t2⟩).outcome ∧
    (hello env1 upload1 ⟨some t1⟩).outcome = Outcome.ok ⟨"Succeeded."⟩ := by
  rw [hello_ok_eq env1 upload1 t1 c1 b1 hlen1 hc1 hb1 hu1,
    hello_ok_eq env2 upload2 t2 c2 b2 hlen2 hc2 hb2 hu2]
  exact ⟨rfl, rfl⟩

/-- Witness for C10 at two different texts submitted in different
environments. -/
theorem hello_success_output_constant_w :
    (hello wEnvMock wUploadOk ⟨some "Firstname"⟩).outcome =
      (hello wEnvMockLocal wUploadOk ⟨some "another text"⟩).outcome ∧
    (hello wEnvMock wUploadOk (⟨some "Firstname"⟩ : CustomEvent)).outcome =
      Outcome.ok ⟨"Succeeded."⟩ :=
  hello_success_output_constant wEnvMock wEnvMockLocal wUploadOk wUploadOk
    "Firstname" "another text"
    (S3ClientKind.mock "mock_data" "s3_test.json")
    (S3ClientKind.mock "mock_data" "s3_test.json")
    "test-bucket" "other-bucket"
    (by decide) (by decide) (by decide) (by decide) (by decide) (by decide)
    rfl rfl

end LambdaRustSample
